import Mathlib

/-!
The node all_camera_viewer of cob_camera_sensors.

A shallow embedding of the node class AllCameraViewer of
cob_camera_sensors/ros/src/all_camera_viewer.cpp: the camera selection in
init(), the on-demand subscription handling of connectCallback() and
disconnectCallback(), and the image dump of
saveCameraImagesServiceCallback().

The two C++ int members sub_counter_ and image_counter_ are 32-bit signed
integers. They are embedded as integers whose increment and decrement are
reduced into the range -2147483648 .. 2147483647 by wrapInt32, the two's
complement arithmetic the compiled node performs.
-/

namespace AllCameraViewer

/-- The three image streams the node can be set up for. -/
inductive Stream where
  | right
  | left
  | tof
  deriving DecidableEq, Repr

/-- A cv::Mat, reduced to its pixel data. -/
structure Mat where
  data : List Nat
  deriving DecidableEq, Repr

/-- The predicate cv::Mat::empty(). -/
def Mat.empty (m : Mat) : Bool := m.data.isEmpty

/-- The member functions a synchronizer can be registered with. -/
inductive Callback where
  | sharedModeSrvCallback
  | stereoModeSrvCallback
  | allModeSrvCallback
  deriving DecidableEq, Repr

/-- A synchronizer after connectInput(...) and registerCallback(...): the
subscriber filters it reads, in argument order, and the callback it fires. -/
structure SyncWiring where
  inputs : List Stream
  callback : Callback
  deriving DecidableEq, Repr

/-- One line sent to the ROS console. The constructors with an integer are
the calls whose format string ends in a %d argument. -/
inductive LogEntry where
  | info (msg : String)
  | infoInt (msg : String) (arg : Int)
  | debug (msg : String)
  | error (msg : String)
  deriving DecidableEq, Repr

/-- One call cv::imwrite(ss.str(), image): ss is filled with a fixed label,
then counterBuffer, then the extension ".bmp". -/
structure ImageWrite where
  label : String
  counterBuffer : String
  image : Mat
  deriving DecidableEq, Repr

/-- The string ss.str() handed to cv::imwrite. -/
def ImageWrite.fileName (w : ImageWrite) : String :=
  w.label ++ w.counterBuffer ++ ".bmp"

/-- The parameter server entries read by loadParameters(); none is a
parameter that is not set. -/
structure ParamServer where
  use_tof_camera : Option Bool
  use_right_color_camera : Option Bool
  use_left_color_camera : Option Bool
  deriving DecidableEq, Repr

/-- The members of class AllCameraViewer that the modelled functions read or
write (a subscriber is true when subscribed, a synchronizer is none until it
is wired), together with the two effects that leave the object: the console
lines (rosout) and the cv::imwrite calls (disk), both in program order. -/
structure Node where
  use_tof_camera_ : Bool
  use_left_color_camera_ : Bool
  use_right_color_camera_ : Bool
  sub_counter_ : Int
  image_counter_ : Int
  left_color_camera_image_sub_ : Bool
  right_color_camera_image_sub_ : Bool
  tof_camera_grey_image_sub_ : Bool
  left_camera_info_sub_ : Bool
  right_camera_info_sub_ : Bool
  shared_sub_sync_ : Option SyncWiring
  stereo_sub_sync_ : Option SyncWiring
  all_sub_sync_ : Option SyncWiring
  save_camera_images_service_ : Bool
  right_color_mat_8U3_ : Mat
  left_color_mat_8U3_ : Mat
  grey_mat_8U3_ : Mat
  rosout : List LogEntry
  disk : List ImageWrite
  deriving DecidableEq, Repr

/-- The value a 32-bit int holds after an arithmetic result x: x reduced
modulo 2^32 into the range -2147483648 .. 2147483647. -/
def wrapInt32 (x : Int) : Int :=
  (x + 2147483648) % 4294967296 - 2147483648

/-- The constructor AllCameraViewer(node_handle): sub_counter_(0), the three
flags set to true, image_counter_ = 0, nothing subscribed or wired, every
cv::Mat default-constructed (empty). -/
def constructed : Node :=
  { use_tof_camera_ := true
    use_left_color_camera_ := true
    use_right_color_camera_ := true
    sub_counter_ := 0
    image_counter_ := 0
    left_color_camera_image_sub_ := false
    right_color_camera_image_sub_ := false
    tof_camera_grey_image_sub_ := false
    left_camera_info_sub_ := false
    right_camera_info_sub_ := false
    shared_sub_sync_ := none
    stereo_sub_sync_ := none
    all_sub_sync_ := none
    save_camera_images_service_ := false
    right_color_mat_8U3_ := ⟨[]⟩
    left_color_mat_8U3_ := ⟨[]⟩
    grey_mat_8U3_ := ⟨[]⟩
    rosout := []
    disk := [] }

/-- The function loadParameters(): the three getParam calls in source order
(tof, right, left); a missing parameter logs an error and returns false, the
members assigned before it keep their new value. -/
def loadParameters (ps : ParamServer) (s : Node) : Bool × Node :=
  match ps.use_tof_camera with
  | none =>
    (false, { s with rosout := s.rosout ++
      [LogEntry.error "[all_camera_viewer] 'use_tof_camera' not specified"] })
  | some t =>
    let s1 := { s with
      use_tof_camera_ := t
      rosout := s.rosout ++ [LogEntry.infoInt "use tof camera: %d" (if t then 1 else 0)] }
    match ps.use_right_color_camera with
    | none =>
      (false, { s1 with rosout := s1.rosout ++
        [LogEntry.error "[all_camera_viewer] 'use_right_color_camera' not specified"] })
    | some r =>
      let s2 := { s1 with
        use_right_color_camera_ := r
        rosout := s1.rosout ++
          [LogEntry.infoInt "use right color camera: %d" (if r then 1 else 0)] }
      match ps.use_left_color_camera with
      | none =>
        (false, { s2 with rosout := s2.rosout ++
          [LogEntry.error "[all_camera_viewer] 'use_left_color_camera' not specified"] })
      | some l =>
        (true, { s2 with
          use_left_color_camera_ := l
          rosout := s2.rosout ++
            [LogEntry.infoInt "use left color camera: %d" (if l then 1 else 0)] })

/-- The function connectCallback(): the whole body is guarded by
sub_counter_ == 0; inside, the counter is incremented (an int increment) and
every camera whose flag is set is subscribed (image and, for the colour
cameras, camera_info). -/
def connectCallback (s : Node) : Node :=
  if s.sub_counter_ = 0 then
    let s1 := { s with
      sub_counter_ := wrapInt32 (s.sub_counter_ + 1)
      rosout := s.rosout ++ [LogEntry.debug "[all_camera_viewer] Subscribing to camera topics"] }
    let s2 := if s1.use_right_color_camera_ then
      { s1 with right_color_camera_image_sub_ := true, right_camera_info_sub_ := true }
      else s1
    let s3 := if s2.use_left_color_camera_ then
      { s2 with left_color_camera_image_sub_ := true, left_camera_info_sub_ := true }
      else s2
    if s3.use_tof_camera_ then
      { s3 with tof_camera_grey_image_sub_ := true }
    else s3
  else s

/-- The function disconnectCallback(): the counter is decremented first (an
int decrement); when it is 0 afterwards every camera whose flag is set is
unsubscribed. -/
def disconnectCallback (s : Node) : Node :=
  let s0 := { s with sub_counter_ := wrapInt32 (s.sub_counter_ - 1) }
  if s0.sub_counter_ = 0 then
    let s1 := { s0 with
      rosout := s0.rosout ++ [LogEntry.debug "[all_camera_viewer] Unsubscribing from camera topics"] }
    let s2 := if s1.use_right_color_camera_ then
      { s1 with right_color_camera_image_sub_ := false, right_camera_info_sub_ := false }
      else s1
    let s3 := if s2.use_left_color_camera_ then
      { s2 with left_color_camera_image_sub_ := false, left_camera_info_sub_ := false }
      else s2
    if s3.use_tof_camera_ then
      { s3 with tof_camera_grey_image_sub_ := false }
    else s3
  else s0

/-- The function init(): load the parameters, advertise the save service,
wire the one synchronizer selected by the three flags (or log an error and
return false), then call connectCallback() once. -/
def init (ps : ParamServer) (s : Node) : Bool × Node :=
  match loadParameters ps s with
  | (false, s0) => (false, s0)
  | (true, s0) =>
    let s1 := { s0 with save_camera_images_service_ := true }
    if s1.use_right_color_camera_ && s1.use_tof_camera_ && !s1.use_left_color_camera_ then
      let s2 := { s1 with
        rosout := s1.rosout ++
          [LogEntry.info "[all_camera_viewer] Setting up subscribers for right color and tof camera"]
        shared_sub_sync_ := some ⟨[.right, .tof], .sharedModeSrvCallback⟩ }
      let s3 := connectCallback s2
      (true, { s3 with rosout := s3.rosout ++ [LogEntry.info "[all_camera_viewer] Initializing [OK]"] })
    else if s1.use_right_color_camera_ && !s1.use_tof_camera_ && s1.use_left_color_camera_ then
      let s2 := { s1 with
        rosout := s1.rosout ++
          [LogEntry.info "[all_camera_viewer] Setting up subscribers left and right color camera"]
        stereo_sub_sync_ := some ⟨[.left, .right], .stereoModeSrvCallback⟩ }
      let s3 := connectCallback s2
      (true, { s3 with rosout := s3.rosout ++ [LogEntry.info "[all_camera_viewer] Initializing [OK]"] })
    else if s1.use_right_color_camera_ && s1.use_tof_camera_ && s1.use_left_color_camera_ then
      let s2 := { s1 with
        rosout := s1.rosout ++
          [LogEntry.info "[all_camera_viewer] Setting up subscribers for left color, right color and tof camera"]
        all_sub_sync_ := some ⟨[.left, .right, .tof], .allModeSrvCallback⟩ }
      let s3 := connectCallback s2
      (true, { s3 with rosout := s3.rosout ++ [LogEntry.info "[all_camera_viewer] Initializing [OK]"] })
    else
      (false, { s1 with rosout := s1.rosout ++
        [LogEntry.error "[all_camera_viewer] Specified camera configuration not available"] })

/-- The C conversion %04d of sprintf: the decimal digits, padded on the left
with zeros to a width of at least four characters, the sign of a negative
number counting as one of them. -/
def sprintf04d (n : Int) : String :=
  if n < 0 then
    "-" ++ String.mk (List.replicate (3 - (toString n.natAbs).length) '0') ++ toString n.natAbs
  else
    String.mk (List.replicate (4 - (toString n.toNat).length) '0') ++ toString n.toNat

/-- The function saveCameraImagesServiceCallback(req, res): counterBuffer is
formatted once from image_counter_; then, for right, left and tof in this
order, the test "flag set and image empty" logs and returns false, and its
else branch writes the image; image_counter_++ (an int increment) is reached
after the three blocks only. -/
def saveCameraImagesServiceCallback (s : Node) : Bool × Node :=
  let s0 := { s with rosout := s.rosout ++ [LogEntry.info "[all_camera_viewer] Service Callback"] }
  let counterBuffer := sprintf04d s0.image_counter_
  if s0.use_right_color_camera_ && s0.right_color_mat_8U3_.empty then
    (false, { s0 with rosout := s0.rosout ++
      [LogEntry.info "[all_camera_viewer] Right color image not available"] })
  else
    let s1 := { s0 with
      disk := s0.disk ++ [ImageWrite.mk "right_color_image_" counterBuffer s0.right_color_mat_8U3_]
      rosout := s0.rosout ++
        [LogEntry.infoInt "[all_camera_viewer] Saved right color image %d" s0.image_counter_] }
    if s1.use_left_color_camera_ && s1.left_color_mat_8U3_.empty then
      (false, { s1 with rosout := s1.rosout ++
        [LogEntry.info "[all_camera_viewer] Left color image not available"] })
    else
      let s2 := { s1 with
        disk := s1.disk ++ [ImageWrite.mk "left_color_image_" counterBuffer s1.left_color_mat_8U3_]
        rosout := s1.rosout ++
          [LogEntry.infoInt "[all_camera_viewer] Saved left color image %d" s1.image_counter_] }
      if s2.use_tof_camera_ && s2.grey_mat_8U3_.empty then
        (false, { s2 with rosout := s2.rosout ++
          [LogEntry.info "[all_camera_viewer] Left color image not available"] })
      else
        let s3 := { s2 with
          disk := s2.disk ++ [ImageWrite.mk "tof_grey_image_" counterBuffer s2.grey_mat_8U3_]
          rosout := s2.rosout ++
            [LogEntry.infoInt "[all_camera_viewer] Saved tof grey image %d" s2.image_counter_] }
        (true, { s3 with image_counter_ := wrapInt32 (s3.image_counter_ + 1) })

/-- The two subscriber status callbacks bound in init(). -/
inductive Event where
  | connect
  | disconnect
  deriving DecidableEq, Repr

/-- One callback invocation. -/
def step (s : Node) : Event → Node
  | .connect => connectCallback s
  | .disconnect => disconnectCallback s

/-- A finite sequence of callback invocations, executed from left to right. -/
def run (s : Node) : List Event → Node
  | [] => s
  | e :: es => run (step s e) es

/-- The state after the constructor and a successful loadParameters() that
read the given three flags: the constructed state with the flags replaced. -/
def configured (useLeft useRight useTof : Bool) : Node :=
  { constructed with
    use_tof_camera_ := useTof
    use_right_color_camera_ := useRight
    use_left_color_camera_ := useLeft }

/-- The flag of a stream: the stream belongs to the camera configuration. -/
def required (s : Node) : Stream → Bool
  | .right => s.use_right_color_camera_
  | .left => s.use_left_color_camera_
  | .tof => s.use_tof_camera_

/-- The three camera configurations init() accepts, as its three tests. -/
def validTopology (s : Node) : Bool :=
  (s.use_right_color_camera_ && s.use_tof_camera_ && !s.use_left_color_camera_) ||
  (s.use_right_color_camera_ && !s.use_tof_camera_ && s.use_left_color_camera_) ||
  (s.use_right_color_camera_ && s.use_tof_camera_ && s.use_left_color_camera_)

/-- The subscribers of a stream are subscribed: the image subscriber and, for
a colour camera, its camera_info subscriber. -/
def subscribed (s : Node) : Stream → Bool
  | .right => s.right_color_camera_image_sub_ && s.right_camera_info_sub_
  | .left => s.left_color_camera_image_sub_ && s.left_camera_info_sub_
  | .tof => s.tof_camera_grey_image_sub_

/-- No subscriber of the node is subscribed. -/
def nothingSubscribed (s : Node) : Bool :=
  !s.right_color_camera_image_sub_ && !s.right_camera_info_sub_ &&
  !s.left_color_camera_image_sub_ && !s.left_camera_info_sub_ &&
  !s.tof_camera_grey_image_sub_

/-- The image the save service writes for a stream. -/
def storedFrame (s : Node) : Stream → Mat
  | .right => s.right_color_mat_8U3_
  | .left => s.left_color_mat_8U3_
  | .tof => s.grey_mat_8U3_

/-- The label the save service puts in front of the counter for a stream. -/
def fileLabel : Stream → String
  | .right => "right_color_image_"
  | .left => "left_color_image_"
  | .tof => "tof_grey_image_"

/-- The three synchronizer members, in the order shared, stereo, all. -/
def wiredSyncs (s : Node) : Option SyncWiring × Option SyncWiring × Option SyncWiring :=
  (s.shared_sub_sync_, s.stereo_sub_sync_, s.all_sub_sync_)

/-- The parameter server on which the three flags are all set. -/
def flagsSet (useLeft useRight useTof : Bool) : ParamServer :=
  { use_tof_camera := some useTof
    use_right_color_camera := some useRight
    use_left_color_camera := some useLeft }

/-- A state of the left+right+tof configuration in which the right and the
tof image have been received and the left image has not. -/
def leftMissing : Node :=
  { constructed with
    right_color_mat_8U3_ := ⟨[1]⟩
    grey_mat_8U3_ := ⟨[2]⟩ }

/-- A state of the left+right+tof configuration in which all three images
have been received. -/
def allReady : Node :=
  { constructed with
    right_color_mat_8U3_ := ⟨[1]⟩
    left_color_mat_8U3_ := ⟨[3]⟩
    grey_mat_8U3_ := ⟨[2]⟩ }

/-- A state of the right+tof configuration in which both of its images have
been received; the left image is the empty one of the constructor. -/
def sharedReady : Node :=
  { configured false true true with
    right_color_mat_8U3_ := ⟨[1]⟩
    grey_mat_8U3_ := ⟨[2]⟩ }

/-- The sequence connect, disconnect repeated n times. -/
def connectDisconnectPairs : Nat → List Event
  | 0 => []
  | n + 1 => Event.connect :: Event.disconnect :: connectDisconnectPairs n

/-- No disconnectCallback of the sequence is executed in a state whose
sub_counter_ is 0. -/
def noDisconnectAtZero (s : Node) : List Event → Bool
  | [] => true
  | Event.connect :: es => noDisconnectAtZero (connectCallback s) es
  | Event.disconnect :: es =>
    decide (s.sub_counter_ ≠ 0) && noDisconnectAtZero (disconnectCallback s) es

/-- The relation between the counter and the subscribers that every state
reached from a configured node satisfies: the flags are the configured ones,
the counter is at most 1, and a subscriber is subscribed exactly when its
flag is set and the counter is 1. -/
def SubInv (l r t : Bool) (s : Node) : Prop :=
  s.use_left_color_camera_ = l ∧ s.use_right_color_camera_ = r ∧ s.use_tof_camera_ = t ∧
  s.sub_counter_ ≤ 1 ∧
  s.right_color_camera_image_sub_ = (r && decide (s.sub_counter_ = 1)) ∧
  s.right_camera_info_sub_ = (r && decide (s.sub_counter_ = 1)) ∧
  s.left_color_camera_image_sub_ = (l && decide (s.sub_counter_ = 1)) ∧
  s.left_camera_info_sub_ = (l && decide (s.sub_counter_ = 1)) ∧
  s.tof_camera_grey_image_sub_ = (t && decide (s.sub_counter_ = 1))

/-! Section: 32-bit arithmetic -/

/-- A result inside the range of int is stored unchanged. -/
lemma wrapInt32_eq_self (x : Int) (hlo : -2147483648 ≤ x) (hhi : x ≤ 2147483647) :
    wrapInt32 x = x := by
  unfold wrapInt32
  omega

lemma wrapInt32_zero : wrapInt32 0 = 0 := by decide

lemma wrapInt32_one : wrapInt32 1 = 1 := by decide

/-- Decrementing the smallest int gives the largest one. -/
lemma wrapInt32_underflow : wrapInt32 (-2147483648 - 1) = 2147483647 := by decide

/-! Section: Camera selection in init() -/

/-- C1: for each of the eight values of (useLeft, useRight, useTof), init()
returns true exactly for right+tof without left, left+right without tof and
left+right+tof, with the shared, the stereo and the all synchronizer wired
respectively and the two others untouched; for the five other values it
returns false and no synchronizer is wired. -/
theorem init_topology_selection (useLeft useRight useTof : Bool) :
    ((init (flagsSet useLeft useRight useTof) constructed).1,
      wiredSyncs (init (flagsSet useLeft useRight useTof) constructed).2) =
    (match useLeft, useRight, useTof with
      | false, true, true =>
        (true, some ⟨[Stream.right, Stream.tof], Callback.sharedModeSrvCallback⟩, none, none)
      | true, true, false =>
        (true, none, some ⟨[Stream.left, Stream.right], Callback.stereoModeSrvCallback⟩, none)
      | true, true, true =>
        (true, none, none,
          some ⟨[Stream.left, Stream.right, Stream.tof], Callback.allModeSrvCallback⟩)
      | _, _, _ => (false, none, none, none)) := by
  cases useLeft <;> cases useRight <;> cases useTof <;> rfl

/-! Section: The save service -/

/-- A property of all streams is a property of right, left and tof. -/
lemma forall_stream (p : Stream → Prop) :
    (∀ st, p st) ↔ p Stream.right ∧ p Stream.left ∧ p Stream.tof := by
  constructor
  · intro h
    exact ⟨h _, h _, h _⟩
  · rintro ⟨h1, h2, h3⟩ st
    cases st <;> assumption

/-- Some stream has a property when right, left or tof has it. -/
lemma exists_stream (p : Stream → Prop) :
    (∃ st, p st) ↔ p Stream.right ∨ p Stream.left ∨ p Stream.tof := by
  constructor
  · rintro ⟨st, h⟩
    cases st
    · exact Or.inl h
    · exact Or.inr (Or.inl h)
    · exact Or.inr (Or.inr h)
  · rintro (h | h | h) <;> exact ⟨_, h⟩

/-- The return value of the save service as a boolean formula over the three
flags and the three images. -/
lemma save_result (s : Node) :
    (saveCameraImagesServiceCallback s).1 =
      (!(s.use_right_color_camera_ && s.right_color_mat_8U3_.empty) &&
       !(s.use_left_color_camera_ && s.left_color_mat_8U3_.empty) &&
       !(s.use_tof_camera_ && s.grey_mat_8U3_.empty)) := by
  obtain ⟨t, l, r, _, _, _, _, _, _, _, _, _, _, _, ⟨rm⟩, ⟨lm⟩, ⟨gm⟩, _, _⟩ := s
  cases t <;> cases l <;> cases r <;> cases rm <;> cases lm <;> cases gm <;> rfl

/-- C2: for every value of the three flags and of the three stored images,
the save service returns true exactly when the image of every stream whose
flag is set is non-empty, and returns false exactly when the image of some
stream whose flag is set is empty. -/
theorem save_success_iff_required_frames_available (s : Node) :
    ((saveCameraImagesServiceCallback s).1 = true ↔
      ∀ st, required s st = true → (storedFrame s st).empty = false) ∧
    ((saveCameraImagesServiceCallback s).1 = false ↔
      ∃ st, required s st = true ∧ (storedFrame s st).empty = true) := by
  rw [save_result, forall_stream, exists_stream]
  simp only [required, storedFrame]
  generalize s.use_right_color_camera_ = r
  generalize s.use_left_color_camera_ = l
  generalize s.use_tof_camera_ = t
  generalize s.right_color_mat_8U3_.empty = er
  generalize s.left_color_mat_8U3_.empty = el
  generalize s.grey_mat_8U3_.empty = et
  cases r <;> cases l <;> cases t <;> cases er <;> cases el <;> cases et <;> simp

/-- C3, as the claim states it, fails: on the constructed node (all three
flags set, no image received) the save request fails and image_counter_ is 0
before and still 0 after it, not 1. -/
theorem save_failure_keeps_image_counter :
    (saveCameraImagesServiceCallback constructed).1 = false ∧
    constructed.image_counter_ = 0 ∧
    (saveCameraImagesServiceCallback constructed).2.image_counter_ = 0 ∧
    (saveCameraImagesServiceCallback constructed).2.image_counter_ ≠
      constructed.image_counter_ + 1 := by
  decide

/-- C3, amended: a save request that fails because a required frame is
unavailable leaves image_counter_ at its previous value; a save request that
succeeds leaves image_counter_ at its previous value plus one, provided the
previous value is below the largest int, 2147483647. -/
theorem image_counter_after_save (s : Node)
    (hlo : -2147483648 ≤ s.image_counter_) :
    ((saveCameraImagesServiceCallback s).1 = false →
      (saveCameraImagesServiceCallback s).2.image_counter_ = s.image_counter_) ∧
    ((saveCameraImagesServiceCallback s).1 = true → s.image_counter_ < 2147483647 →
      (saveCameraImagesServiceCallback s).2.image_counter_ = s.image_counter_ + 1) := by
  obtain ⟨t, l, r, _, ic, _, _, _, _, _, _, _, _, _, ⟨rm⟩, ⟨lm⟩, ⟨gm⟩, _, _⟩ := s
  simp only at hlo
  have hw : ic < 2147483647 → wrapInt32 (ic + 1) = ic + 1 :=
    fun h => wrapInt32_eq_self _ (by omega) (by omega)
  cases t <;> cases l <;> cases r <;> cases rm <;> cases lm <;> cases gm <;>
    (simp [saveCameraImagesServiceCallback, Mat.empty] <;> exact hw)

/-- Witness of the amended C3: the successful save request on allReady, whose
image_counter_ is 0. -/
theorem image_counter_after_save_witness :
    (-2147483648 : Int) ≤ allReady.image_counter_ ∧
    (saveCameraImagesServiceCallback allReady).1 = true ∧
    (saveCameraImagesServiceCallback allReady).2.image_counter_ =
      allReady.image_counter_ + 1 :=
  ⟨by decide, by decide,
    (image_counter_after_save allReady (by decide)).2 (by decide) (by decide)⟩

/-- C4, as the claim states it, fails: in the left+right+tof configuration
with the right and tof images present and the left image missing, the save
request writes the right image only; no tof image is written. -/
theorem save_left_missing_skips_tof :
    validTopology leftMissing = true ∧
    required leftMissing Stream.left = true ∧
    leftMissing.left_color_mat_8U3_.empty = true ∧
    leftMissing.right_color_mat_8U3_.empty = false ∧
    leftMissing.grey_mat_8U3_.empty = false ∧
    (saveCameraImagesServiceCallback leftMissing).1 = false ∧
    (saveCameraImagesServiceCallback leftMissing).2.disk.map ImageWrite.fileName =
      ["right_color_image_0000.bmp"] ∧
    ¬ ∃ w ∈ (saveCameraImagesServiceCallback leftMissing).2.disk,
        w.label = fileLabel Stream.tof := by
  decide

/-- C4, amended: in the left+right+tof configuration, for every state in
which the left image is missing and the right image is present (the tof image
present or not), a save request returns false, its last console line reports
the left image as not available, and the only file it writes is the right
image, which was written before the left image was tested; the tof image is
not written. -/
theorem save_left_missing_writes_right_only (s : Node)
    (hr : s.use_right_color_camera_ = true) (hl : s.use_left_color_camera_ = true)
    (ht : s.use_tof_camera_ = true)
    (hleft : s.left_color_mat_8U3_.empty = true)
    (hright : s.right_color_mat_8U3_.empty = false) :
    (saveCameraImagesServiceCallback s).1 = false ∧
    (saveCameraImagesServiceCallback s).2.rosout.getLast? =
      some (LogEntry.info "[all_camera_viewer] Left color image not available") ∧
    (saveCameraImagesServiceCallback s).2.disk =
      s.disk ++ [ImageWrite.mk (fileLabel Stream.right) (sprintf04d s.image_counter_)
        s.right_color_mat_8U3_] := by
  simp [saveCameraImagesServiceCallback, hr, hl, ht, hleft, hright, fileLabel]

/-- Witness of the amended C4 at the state leftMissing. -/
theorem save_left_missing_writes_right_only_witness :
    (saveCameraImagesServiceCallback leftMissing).1 = false ∧
    (saveCameraImagesServiceCallback leftMissing).2.rosout.getLast? =
      some (LogEntry.info "[all_camera_viewer] Left color image not available") ∧
    (saveCameraImagesServiceCallback leftMissing).2.disk =
      leftMissing.disk ++ [ImageWrite.mk (fileLabel Stream.right)
        (sprintf04d leftMissing.image_counter_) leftMissing.right_color_mat_8U3_] :=
  save_left_missing_writes_right_only leftMissing rfl rfl rfl rfl rfl

/-- C9, evaluated: in the right+tof configuration with both of its images
present, the save request succeeds and issues three writes, the second one a
left_color_image_ file holding the empty left image. -/
theorem save_shared_writes_left_file :
    validTopology sharedReady = true ∧
    required sharedReady Stream.left = false ∧
    (saveCameraImagesServiceCallback sharedReady).1 = true ∧
    (saveCameraImagesServiceCallback sharedReady).2.disk =
      [ ImageWrite.mk "right_color_image_" "0000" ⟨[1]⟩,
        ImageWrite.mk "left_color_image_" "0000" ⟨[]⟩,
        ImageWrite.mk "tof_grey_image_" "0000" ⟨[2]⟩ ] := by
  decide

/-! Section: Subscription on demand -/

/-- The counter after connectCallback(): 1 when it was 0, unchanged for any
other value. -/
lemma connectCallback_counter (s : Node) :
    (connectCallback s).sub_counter_ = if s.sub_counter_ = 0 then 1 else s.sub_counter_ := by
  obtain ⟨ut, ul, ur, sc, _, _, _, _, _, _, _, _, _, _, _, _, _, _, _⟩ := s
  by_cases h0 : sc = 0
  · subst h0
    cases ut <;> cases ul <;> cases ur <;> simp [connectCallback, wrapInt32_one]
  · simp [connectCallback, h0]

/-- The counter after disconnectCallback(): always the int decrement of the
previous value. -/
lemma disconnectCallback_counter (s : Node) :
    (disconnectCallback s).sub_counter_ = wrapInt32 (s.sub_counter_ - 1) := by
  obtain ⟨ut, ul, ur, sc, _, _, _, _, _, _, _, _, _, _, _, _, _, _, _⟩ := s
  by_cases h0 : wrapInt32 (sc - 1) = 0
  · cases ut <;> cases ul <;> cases ur <;> simp [disconnectCallback, h0]
  · simp [disconnectCallback, h0]

/-- A disconnectCallback() executed with the counter an int that is at most
0 changes the counter only. -/
lemma disconnectCallback_of_nonpos (s : Node) (h : s.sub_counter_ ≤ 0)
    (hmin : -2147483648 ≤ s.sub_counter_) :
    disconnectCallback s = { s with sub_counter_ := wrapInt32 (s.sub_counter_ - 1) } := by
  have hne : wrapInt32 (s.sub_counter_ - 1) ≠ 0 := by
    unfold wrapInt32
    omega
  simp [disconnectCallback, hne]

lemma run_append (a b : List Event) : ∀ s : Node, run s (a ++ b) = run (run s a) b := by
  induction a with
  | nil => intro s; rfl
  | cons e es ih => intro s; exact ih (step s e)

/-- As long as the counter stays in the range of int, n disconnects executed
with the counter at most 0 lower the counter by n and change nothing else. -/
lemma run_disconnects (n : Nat) :
    ∀ s : Node, s.sub_counter_ ≤ 0 → -2147483648 ≤ s.sub_counter_ - n →
      run s (List.replicate n Event.disconnect) =
        { s with sub_counter_ := s.sub_counter_ - n } := by
  induction n with
  | zero => intro s _ _; simp [run]
  | succ n ih =>
    intro s h0 hlo
    have hlo1 : -2147483648 ≤ s.sub_counter_ - 1 - (n : Int) := by push_cast at hlo; omega
    have hw : wrapInt32 (s.sub_counter_ - 1) = s.sub_counter_ - 1 :=
      wrapInt32_eq_self _ (by omega) (by omega)
    rw [List.replicate_succ]
    simp only [run, step]
    rw [disconnectCallback_of_nonpos s h0 (by omega), hw,
      ih _ (by simp only; omega) (by simpa using hlo1)]
    simp only [Nat.cast_add, Nat.cast_one]
    congr 1
    omega

lemma subInv_configured (l r t : Bool) : SubInv l r t (configured l r t) := by
  simp [SubInv, configured, constructed]

lemma subInv_connect {l r t : Bool} {s : Node} (h : SubInv l r t s) :
    SubInv l r t (connectCallback s) := by
  obtain ⟨ut, ul, ur, sc, _, li, ri, ti, lc, rc, _, _, _, _, _, _, _, _, _⟩ := s
  obtain ⟨h1, h2, h3, h4, h5, h6, h7, h8, h9⟩ := h
  simp only at h1 h2 h3 h4 h5 h6 h7 h8 h9
  subst h1 h2 h3
  by_cases h0 : sc = 0
  · subst h0
    cases ut <;> cases ul <;> cases ur <;> simp_all [SubInv, connectCallback, wrapInt32_one]
  · simp [SubInv, connectCallback, h0, h4, h5, h6, h7, h8, h9]

lemma subInv_disconnect {l r t : Bool} {s : Node} (h : SubInv l r t s)
    (hlo : -2147483648 < s.sub_counter_) :
    SubInv l r t (disconnectCallback s) := by
  obtain ⟨ut, ul, ur, sc, _, li, ri, ti, lc, rc, _, _, _, _, _, _, _, _, _⟩ := s
  obtain ⟨h1, h2, h3, h4, h5, h6, h7, h8, h9⟩ := h
  simp only at h1 h2 h3 h4 h5 h6 h7 h8 h9 hlo
  subst h1 h2 h3
  have hw : wrapInt32 (sc - 1) = sc - 1 := wrapInt32_eq_self _ (by omega) (by omega)
  by_cases h0 : sc = 1
  · subst h0
    cases ut <;> cases ul <;> cases ur <;>
      simp_all [SubInv, disconnectCallback, wrapInt32_zero]
  · have hlt : sc - 1 ≠ 0 := by omega
    have hne : sc - 1 ≠ 1 := by omega
    have hle : sc - 1 ≤ 1 := by omega
    simp [SubInv, disconnectCallback, hw, h0, hlt, hne, hle, h5, h6, h7, h8, h9]

/-- The invariant holds along every run short enough for the counter to stay
in the range of int. -/
lemma subInv_run {l r t : Bool} (evs : List Event) :
    ∀ {s : Node}, SubInv l r t s → -2147483648 ≤ s.sub_counter_ - evs.length →
      SubInv l r t (run s evs) := by
  induction evs with
  | nil => intro s h _; exact h
  | cons e es ih =>
    intro s h hlo
    simp only [List.length_cons, Nat.cast_add, Nat.cast_one] at hlo
    cases e
    · refine ih (subInv_connect h) ?_
      change -2147483648 ≤ (connectCallback s).sub_counter_ - (es.length : Int)
      rw [connectCallback_counter]
      split_ifs with h0
      · rw [h0] at hlo; omega
      · omega
    · have hle : s.sub_counter_ ≤ 1 := h.2.2.2.1
      refine ih (subInv_disconnect h (by omega)) ?_
      change -2147483648 ≤ (disconnectCallback s).sub_counter_ - (es.length : Int)
      rw [disconnectCallback_counter, wrapInt32_eq_self _ (by omega) (by omega)]
      omega

/-- C5, as the claim states it, fails: in the left+right+tof configuration,
after 2147483649 disconnectCallback() calls on the freshly configured node the
int counter has wrapped to 2147483647, which is positive, while no stream is
subscribed. -/
theorem sub_counter_pos_without_subscription :
    validTopology (configured true true true) = true ∧
    required (configured true true true) Stream.right = true ∧
    (run (configured true true true)
      (List.replicate 2147483649 Event.disconnect)).sub_counter_ = 2147483647 ∧
    subscribed (run (configured true true true)
      (List.replicate 2147483649 Event.disconnect)) Stream.right = false ∧
    ¬ ((∀ st, required (configured true true true) st = true →
        subscribed (run (configured true true true)
          (List.replicate 2147483649 Event.disconnect)) st = true) ↔
      0 < (run (configured true true true)
          (List.replicate 2147483649 Event.disconnect)).sub_counter_) := by
  have hsplit : List.replicate 2147483649 Event.disconnect =
      List.replicate 2147483648 Event.disconnect ++ [Event.disconnect] :=
    List.replicate_succ' 2147483648 Event.disconnect
  have hrun : run (configured true true true) (List.replicate 2147483649 Event.disconnect) =
      { configured true true true with sub_counter_ := 2147483647 } := by
    rw [hsplit, run_append, run_disconnects 2147483648 _ (by decide) (by decide)]
    simp only [run, step]
    rw [disconnectCallback_of_nonpos _ (by decide) (by decide)]
    rfl
  rw [hrun]
  refine ⟨by decide, by decide, by decide, by decide, fun h => ?_⟩
  have hsub := h.2 (by decide) Stream.right (by decide)
  exact absurd hsub (by decide)

/-- C5, amended: for each of the three accepted camera configurations and
every sequence of at most 2147483648 connectCallback() and
disconnectCallback() calls executed on the freshly configured node (counter 0,
nothing subscribed), in the state reached the streams of the configuration
are all subscribed if and only if sub_counter_ is positive; the equivalence
also holds for each stream of the configuration on its own. -/
theorem subscribed_iff_sub_counter_pos (useLeft useRight useTof : Bool)
    (hvalid : validTopology (configured useLeft useRight useTof) = true)
    (evs : List Event) (hlen : evs.length ≤ 2147483648) :
    ((∀ st, required (configured useLeft useRight useTof) st = true →
        subscribed (run (configured useLeft useRight useTof) evs) st = true) ↔
      0 < (run (configured useLeft useRight useTof) evs).sub_counter_) ∧
    (∀ st, required (configured useLeft useRight useTof) st = true →
      (subscribed (run (configured useLeft useRight useTof) evs) st = true ↔
        0 < (run (configured useLeft useRight useTof) evs).sub_counter_)) := by
  have h0 : (configured useLeft useRight useTof).sub_counter_ = 0 := rfl
  have inv := subInv_run evs (subInv_configured useLeft useRight useTof)
    (by rw [h0]; omega)
  have hr : useRight = true := by
    cases useLeft <;> cases useRight <;> cases useTof <;>
      simp [validTopology, configured, constructed] at hvalid ⊢
  generalize run (configured useLeft useRight useTof) evs = s at inv ⊢
  obtain ⟨-, -, -, h4, h5, h6, h7, h8, h9⟩ := inv
  have hpos : 0 < s.sub_counter_ ↔ s.sub_counter_ = 1 := by omega
  subst hr
  rw [forall_stream, forall_stream]
  simp only [required, configured, constructed, subscribed, h5, h6, h7, h8, h9, hpos]
  by_cases h1 : s.sub_counter_ = 1 <;> simp [h1]

/-- Witness of the amended C5: the left+right+tof configuration, the sequence
connect, connect, disconnect, and the right stream. -/
theorem subscribed_iff_sub_counter_pos_witness :
    validTopology (configured true true true) = true ∧
    [Event.connect, Event.connect, Event.disconnect].length ≤ 2147483648 ∧
    (subscribed (run (configured true true true)
        [Event.connect, Event.connect, Event.disconnect]) Stream.right = true ↔
      0 < (run (configured true true true)
        [Event.connect, Event.connect, Event.disconnect]).sub_counter_) :=
  ⟨by decide, by decide, (subscribed_iff_sub_counter_pos true true true (by decide)
    [Event.connect, Event.connect, Event.disconnect] (by decide)).2 Stream.right rfl⟩

/-- C6, as the claim states it, fails: a disconnectCallback() executed on the
constructed node, whose counter is 0, leaves the counter at -1, which is
negative and not the clamped value 0. -/
theorem disconnect_at_zero_goes_negative :
    constructed.sub_counter_ = 0 ∧
    (run constructed [Event.disconnect]).sub_counter_ = -1 ∧
    ¬ (0 ≤ (run constructed [Event.disconnect]).sub_counter_) ∧
    (disconnectCallback constructed).sub_counter_ ≠ 0 := by
  decide

/-- A run without a disconnect at counter 0 that starts with the counter at 0
or 1 keeps the counter at 0 or 1. -/
lemma counter_zero_or_one_of_noDisconnectAtZero (evs : List Event) :
    ∀ s : Node, (s.sub_counter_ = 0 ∨ s.sub_counter_ = 1) →
      noDisconnectAtZero s evs = true → ∀ k : Nat,
        (run s (evs.take k)).sub_counter_ = 0 ∨ (run s (evs.take k)).sub_counter_ = 1 := by
  induction evs with
  | nil => intro s hs _ k; simpa [run] using hs
  | cons e es ih =>
    intro s hs hg k
    cases k with
    | zero => simpa [run] using hs
    | succ k =>
      cases e
      · simp only [noDisconnectAtZero] at hg
        simp only [List.take_succ_cons, run, step]
        refine ih (connectCallback s) ?_ hg k
        rw [connectCallback_counter]
        split_ifs <;> omega
      · simp only [noDisconnectAtZero, Bool.and_eq_true, decide_eq_true_eq] at hg
        simp only [List.take_succ_cons, run, step]
        refine ih (disconnectCallback s) ?_ hg.2 k
        rw [disconnectCallback_counter]
        unfold wrapInt32
        omega

/-- C6, amended: for every camera configuration and every finite sequence of
connectCallback() and disconnectCallback() calls executed on the freshly
configured node in which no disconnectCallback() is executed while the counter
is 0, sub_counter_ is non-negative after every number of calls; a
disconnectCallback() executed when the counter is 0 is not clamped and leaves
the counter at -1. -/
theorem sub_counter_nonneg_without_disconnect_at_zero (useLeft useRight useTof : Bool)
    (evs : List Event)
    (hguard : noDisconnectAtZero (configured useLeft useRight useTof) evs = true) :
    (∀ k : Nat, 0 ≤ (run (configured useLeft useRight useTof) (evs.take k)).sub_counter_) ∧
    (∀ s : Node, s.sub_counter_ = 0 → (disconnectCallback s).sub_counter_ = -1) := by
  refine ⟨fun k => ?_, fun s hs => ?_⟩
  · have h := counter_zero_or_one_of_noDisconnectAtZero evs
      (configured useLeft useRight useTof) (Or.inl rfl) hguard k
    omega
  · rw [disconnectCallback_counter, hs]
    decide

/-- Witness of the amended C6: the right+tof configuration and the sequence
connect, disconnect, connect, after all three calls. -/
theorem sub_counter_nonneg_without_disconnect_at_zero_witness :
    noDisconnectAtZero (configured false true true)
      [Event.connect, Event.disconnect, Event.connect] = true ∧
    0 ≤ (run (configured false true true)
      ([Event.connect, Event.disconnect, Event.connect].take 3)).sub_counter_ :=
  ⟨by decide, (sub_counter_nonneg_without_disconnect_at_zero false true true
    [Event.connect, Event.disconnect, Event.connect] (by decide)).1 3⟩

/-- C7, evaluated: connectCallback() executed on a node whose counter is 1
(the constructed node after one connectCallback()) leaves the counter at 1
instead of 2; after two connects, a single disconnect brings the counter to 0
and unsubscribes everything. -/
theorem connectCallback_second_call_not_counted :
    (connectCallback constructed).sub_counter_ = 1 ∧
    (connectCallback (connectCallback constructed)).sub_counter_ = 1 ∧
    (connectCallback (connectCallback constructed)).sub_counter_ ≠
      (connectCallback constructed).sub_counter_ + 1 ∧
    (run constructed [Event.connect, Event.connect, Event.disconnect]).sub_counter_ = 0 ∧
    nothingSubscribed
      (run constructed [Event.connect, Event.connect, Event.disconnect]) = true := by
  decide

/-- One connectCallback() followed by one disconnectCallback(), executed with
the counter at 0 and nothing subscribed, ends with the counter at 0 and
nothing subscribed. -/
lemma connect_disconnect_pair (s : Node) (h0 : s.sub_counter_ = 0)
    (hn : nothingSubscribed s = true) :
    (disconnectCallback (connectCallback s)).sub_counter_ = 0 ∧
    nothingSubscribed (disconnectCallback (connectCallback s)) = true := by
  obtain ⟨ut, ul, ur, sc, _, li, ri, ti, lc, rc, _, _, _, _, _, _, _, _, _⟩ := s
  simp only at h0
  subst h0
  simp only [nothingSubscribed, Bool.and_eq_true, Bool.not_eq_true'] at hn
  obtain ⟨⟨⟨⟨h1, h2⟩, h3⟩, h4⟩, h5⟩ := hn
  subst h1 h2 h3 h4 h5
  cases ut <;> cases ul <;> cases ur <;>
    simp [connectCallback, disconnectCallback, nothingSubscribed, wrapInt32_one,
      wrapInt32_zero]

/-- C8: for every camera configuration and every n (in particular every
n ≥ 1), executing the pair connectCallback(), disconnectCallback() n times on
the freshly configured node (counter 0, nothing subscribed) ends with
sub_counter_ equal to 0 and no subscriber subscribed. -/
theorem paired_connect_disconnect_returns_to_idle (useLeft useRight useTof : Bool) (n : Nat) :
    (run (configured useLeft useRight useTof) (connectDisconnectPairs n)).sub_counter_ = 0 ∧
    nothingSubscribed
      (run (configured useLeft useRight useTof) (connectDisconnectPairs n)) = true := by
  have key : ∀ (m : Nat) (s : Node), s.sub_counter_ = 0 → nothingSubscribed s = true →
      (run s (connectDisconnectPairs m)).sub_counter_ = 0 ∧
      nothingSubscribed (run s (connectDisconnectPairs m)) = true := by
    intro m
    induction m with
    | zero => intro s h0 hn; exact ⟨h0, hn⟩
    | succ m ih =>
      intro s h0 hn
      obtain ⟨c0, cn⟩ := connect_disconnect_pair s h0 hn
      exact ih _ c0 cn
  exact key n (configured useLeft useRight useTof) rfl rfl

end AllCameraViewer
